import Mathlib

/-!
Shallow embedding of the OpenTSDB datasource query-translation pipeline of
this repository, covering the TypeScript implementation in
`public/app/plugins/datasource/opentsdb/datasource.ts` and the duplicated Go
implementation (`buildMetric`, `buildGexp` in the unnamed Go source file).

Conventions used throughout:
* JavaScript strings that may be `undefined` are modelled as `String`, with
  `""` standing for absent/empty (both are falsy in every test the source
  performs on them).
* JavaScript numbers that the source produces with `parseInt` are modelled by
  `JsNum` (`int` or `nan`); the source never produces fractional values on the
  modelled paths.
* Optional JSON fields of built queries are `Option` fields: `none` means the
  key is absent from the serialized object.
* The template-interpolation service (`templateSrv`) is an external
  collaborator; it is modelled as an abstract record of string functions.
-/

/-- A JavaScript number as produced by `parseInt`: an integer or `NaN`. -/
inductive JsNum where
  | int (n : Int)
  | nan
deriving DecidableEq, Repr

/-- Numeric value of a list of decimal digit characters. -/
def digitsVal (ds : List Char) : Nat :=
  ds.foldl (fun a c => a * 10 + (c.toNat - 48)) 0

/-- JavaScript `parseInt(s, 10)`: skip leading whitespace, optional sign,
then a maximal run of decimal digits; `NaN` when no digit is found. -/
def jsParseInt (s : String) : JsNum :=
  let cs := s.data.dropWhile (fun c => c = ' ' ∨ c = '\t' ∨ c = '\n')
  let signAndRest : Bool × List Char :=
    match cs with
    | '-' :: rest => (true, rest)
    | '+' :: rest => (false, rest)
    | rest => (false, rest)
  let ds := signAndRest.2.takeWhile Char.isDigit
  if ds.isEmpty then .nan
  else .int (if signAndRest.1 then -(digitsVal ds : Int) else (digitsVal ds : Int))

/-- A decimal literal as parsed by JavaScript `parseFloat`: sign, the
integer-and-fraction digits read as one natural `mantissa`, and the number of
fraction digits. The value is `(-1)^neg * mantissa / 10^fracLen`. -/
structure JsDecimal where
  neg : Bool
  mantissa : Nat
  fracLen : Nat
deriving DecidableEq, Repr

/-- JavaScript `parseFloat` restricted to plain decimal literals
(optional sign, integer digits, optional fraction digits); `none` is `NaN`.
Exponent notation is not modelled: the source only applies this to
interval strings such as `0.5s`. -/
def jsParseFloat (s : String) : Option JsDecimal :=
  let cs := s.data.dropWhile (fun c => c = ' ' ∨ c = '\t' ∨ c = '\n')
  let signAndRest : Bool × List Char :=
    match cs with
    | '-' :: rest => (true, rest)
    | '+' :: rest => (false, rest)
    | rest => (false, rest)
  let intDigits := signAndRest.2.takeWhile Char.isDigit
  let afterInt := signAndRest.2.drop intDigits.length
  let fracDigits :=
    match afterInt with
    | '.' :: rest => rest.takeWhile Char.isDigit
    | _ => ([] : List Char)
  if intDigits.isEmpty ∧ fracDigits.isEmpty then none
  else
    some { neg := signAndRest.1
           mantissa := digitsVal intDigits * 10 ^ fracDigits.length + digitsVal fracDigits
           fracLen := fracDigits.length }

/-- Left-pad a digit string with zeros to length `n`. -/
def padZeros (s : String) (n : Nat) : String :=
  String.mk (List.replicate (n - s.length) '0') ++ s

/-- Strip trailing zero digits of a fraction `m / 10^k` (JavaScript prints the
shortest digit sequence: `0.50` prints as `0.5`). -/
def stripZeros : Nat → Nat → Nat × Nat
  | m, 0 => (m, 0)
  | m, k + 1 => if m % 10 = 0 then stripZeros (m / 10) k else (m, k + 1)

/-- Render the nonnegative decimal `m / 10^k` the way JavaScript prints the
corresponding number (integers without a decimal point, minimal fraction
digits). -/
def decimalString (m k : Nat) : String :=
  let mk' := stripZeros m k
  if mk'.2 = 0 then toString mk'.1
  else toString (mk'.1 / 10 ^ mk'.2) ++ "." ++ padZeros (toString (mk'.1 % 10 ^ mk'.2)) mk'.2

/-- Does `\.[0-9]+s` match starting exactly at the head of `cs`? -/
def subSecondAt (cs : List Char) : Bool :=
  match cs with
  | '.' :: rest =>
    let ds := rest.takeWhile Char.isDigit
    if ds.isEmpty then false
    else
      match rest.drop ds.length with
      | 's' :: _ => true
      | _ => false
  | _ => false

/-- JavaScript `interval.match(/\.[0-9]+s/)` viewed as a boolean test:
the unanchored pattern matches somewhere in the string. -/
def matchesSubSecond (s : String) : Bool :=
  (List.range s.length).any fun i => subSecondAt (s.data.drop i)

/-- `parseFloat(interval) * 1000 + 'ms'` from `convertTargetToQuery`, in
exact decimal arithmetic: the value `mantissa / 10^fracLen` times 1000 is
`mantissa * 10^(3 - fracLen)` when at most three fraction digits were given
and `mantissa / 10^(fracLen - 3)` otherwise. (Binary floating-point rounding,
such as JavaScript printing `0.1 * 1000` with a trailing `…01`, is not
modelled; JavaScript also prints negative zero without its sign.) -/
def subSecondToMs (interval : String) : String :=
  match jsParseFloat interval with
  | some d =>
    let sgn := if d.neg ∧ d.mantissa ≠ 0 then "-" else ""
    sgn ++ decimalString (d.mantissa * 10 ^ (3 - d.fracLen)) (d.fracLen - 3) ++ "ms"
  | none => "NaNms"

/-- The external template-interpolation collaborator (`templateSrv`),
abstracted as string transformers. `replacePipe` is
`templateSrv.replace(x, scopedVars, 'pipe')`; `replace` is the call without a
format argument; `replaceAlias` is the alias call with the series' tags
injected as `tag_<key>` scoped variables. -/
structure TemplateSrv where
  replacePipe : String → String
  replace : String → String
  replaceAlias : String → List (String × String) → String

/-- The identity interpolation service (no template variables in scope). -/
def idTemplateSrv : TemplateSrv :=
  { replacePipe := id, replace := id, replaceAlias := fun s _ => s }

/-- One entry of a target's `filters` array. -/
structure QueryFilter where
  type : String := ""
  tagk : String := ""
  filter : String := ""
  groupBy : Bool := false
deriving DecidableEq, Repr

/-- One panel target as read by the TypeScript datasource. Fields the source
tests for truthiness are `String` with `""` for absent, `Bool`, or `Option`. -/
structure Target where
  metric : String := ""
  gexp : String := ""
  queryType : Option String := none
  hide : Bool := false
  aggregator : String := ""
  shouldComputeRate : Bool := false
  isCounter : Bool := false
  counterMax : String := ""
  counterResetValue : String := ""
  disableDownsampling : Bool := false
  downsampleInterval : String := ""
  downsampleAggregator : String := ""
  downsampleFillPolicy : String := ""
  filters : List QueryFilter := []
  tags : List (String × String) := []
  explicitTags : Bool := false
  «alias» : String := ""
  gexpAlias : String := ""
deriving DecidableEq, Repr

/-- A dynamic value stored in the built query's `rateOptions` object. -/
inductive RateVal where
  | num (n : JsNum)
  | bool (b : Bool)
deriving DecidableEq, Repr

/-- The `rateOptions` object, kept as a key-value list so that property reads
of keys that were never written behave as in JavaScript (they yield
`undefined`, here `none`). -/
abbrev RateOpts := List (String × RateVal)

/-- JavaScript property read on the `rateOptions` object. -/
def getRate (o : RateOpts) (k : String) : Option RateVal :=
  (o.find? (fun kv => kv.1 = k)).map (fun kv => kv.2)

/-- JavaScript property write on the `rateOptions` object. -/
def setRate (o : RateOpts) (k : String) (v : RateVal) : RateOpts :=
  if (o.find? (fun kv => kv.1 = k)).isSome then
    o.map (fun kv => if kv.1 = k then (k, v) else kv)
  else o ++ [(k, v)]

/-- Truthiness of a possibly-undefined `rateOptions` property. -/
def rvTruthy : Option RateVal → Bool
  | none => false
  | some (.num (.int n)) => n != 0
  | some (.num .nan) => false
  | some (.bool b) => b

/-- Strict equality of a possibly-undefined `rateOptions` property with `0`. -/
def rvIsZero : Option RateVal → Bool
  | some (.num (.int n)) => n == 0
  | _ => false

/-- The metric sub-query built by `convertTargetToQuery`. `Option` fields are
JSON keys that are only conditionally assigned. -/
structure MetricQuery where
  metric : String
  aggregator : String
  rate : Bool := false
  rateOptions : Option RateOpts := none
  downsample : Option String := none
  filters : Option (List QueryFilter) := none
  tags : Option (List (String × String)) := none
  explicitTags : Bool := false
deriving DecidableEq, Repr, Inhabited

/-- `convertTargetToQuery(target, options, tsdbVersion)` from the TypeScript
datasource. `optionsInterval` is `options.interval`, the panel-wide interval
used as fallback for a blank `downsampleInterval`. Returns `none` for the
source's `null` (empty metric or hidden target). Note that the derivation of
`dropResets` reads the property `ResetValue` (capital R) exactly as the
source line does, although the stored key is `resetValue`. -/
def convertTargetToQuery (tsr : TemplateSrv) (target : Target)
    (optionsInterval : String) (tsdbVersion : Nat) : Option MetricQuery :=
  if target.metric = "" ∨ target.hide then none
  else
    let query0 : MetricQuery :=
      { metric := tsr.replacePipe target.metric, aggregator := "avg" }
    let query1 :=
      if target.aggregator ≠ "" then
        { query0 with aggregator := tsr.replace target.aggregator }
      else query0
    let query2 :=
      if target.shouldComputeRate then
        let ro0 : RateOpts := [("counter", RateVal.bool target.isCounter)]
        let ro1 :=
          if target.counterMax ≠ "" then
            setRate ro0 "counterMax" (RateVal.num (jsParseInt target.counterMax))
          else ro0
        let ro2 :=
          if target.counterResetValue ≠ "" then
            setRate ro1 "resetValue" (RateVal.num (jsParseInt target.counterResetValue))
          else ro1
        let ro3 :=
          if tsdbVersion ≥ 2 then
            setRate ro2 "dropResets"
              (RateVal.bool (!rvTruthy (getRate ro2 "counterMax") &&
                (!rvTruthy (getRate ro2 "ResetValue") || rvIsZero (getRate ro2 "ResetValue"))))
          else ro2
        { query1 with rate := true, rateOptions := some ro3 }
      else query1
    let query3 :=
      if !target.disableDownsampling then
        let interval0 := tsr.replace
          (if target.downsampleInterval ≠ "" then target.downsampleInterval else optionsInterval)
        let interval1 := if matchesSubSecond interval0 then subSecondToMs interval0 else interval0
        let ds0 := interval1 ++ "-" ++ target.downsampleAggregator
        let ds1 :=
          if target.downsampleFillPolicy ≠ "" ∧ target.downsampleFillPolicy ≠ "none" then
            ds0 ++ "-" ++ target.downsampleFillPolicy
          else ds0
        { query2 with downsample := some ds1 }
      else query2
    let query4 :=
      if target.filters.length > 0 then
        let fs := target.filters.map (fun f => { f with filter := tsr.replacePipe f.filter })
        { query3 with filters := some fs }
      else
        let ts := target.tags.map (fun kv => (kv.1, tsr.replacePipe kv.2))
        { query3 with tags := some ts }
    some (if target.explicitTags then { query4 with explicitTags := true } else query4)

/-- `convertGExpToQuery(target)`: `null` for hidden targets, the raw
expression string otherwise. -/
def convertGExpToQuery (target : Target) : Option String :=
  if target.hide then none else some target.gexp

/-! ### Go implementation (`buildMetric`, `buildGexp`) -/

/-- The JSON query model fields read by the Go `buildMetric`/`buildGexp`.
`CheckGet` presence is an `Option`; `MustX` on an absent key yields the zero
value, modelled by the defaults. `counterMax`/`counterResetValue` are float64
JSON numbers, modelled exactly as rationals. -/
structure GoQuery where
  metric : String := ""
  aggregator : String := ""
  disableDownsampling : Bool := false
  downsampleInterval : String := ""
  downsampleAggregator : String := ""
  downsampleFillPolicy : String := ""
  shouldComputeRate : Bool := false
  isCounter : Bool := false
  counterMax : Option Rat := none
  counterResetValue : Option Rat := none
  tags : List (String × String) := []
  filters : List QueryFilter := []
  gexp : String := ""
deriving DecidableEq, Repr

/-- The `rateOptions` map built by the Go `buildMetric`; `dropResets` is only
written when the drop condition holds (`none` = key absent). -/
structure GoRateOptions where
  counter : Bool
  counterMax : Option Rat := none
  resetValue : Option Rat := none
  dropResets : Option Bool := none
deriving DecidableEq, Repr

/-- The metric map built by the Go `buildMetric`. -/
structure GoMetric where
  metric : String
  aggregator : String
  downsample : Option String := none
  rate : Bool := false
  rateOptions : Option GoRateOptions := none
  tags : Option (List (String × String)) := none
  filters : Option (List QueryFilter) := none
deriving DecidableEq, Repr

/-- Go `buildMetric(query)`. -/
def buildMetric (query : GoQuery) : GoMetric :=
  let base : GoMetric := { metric := query.metric, aggregator := query.aggregator }
  let m1 :=
    if !query.disableDownsampling then
      let downsampleInterval :=
        if query.downsampleInterval = "" then "1m" else query.downsampleInterval
      let downsample := downsampleInterval ++ "-" ++ query.downsampleAggregator
      if query.downsampleFillPolicy ≠ "none" then
        { base with downsample := some (downsample ++ "-" ++ query.downsampleFillPolicy) }
      else
        { base with downsample := some downsample }
    else base
  let m2 :=
    if query.shouldComputeRate then
      let ro : GoRateOptions :=
        { counter := query.isCounter
          counterMax := query.counterMax
          resetValue := query.counterResetValue
          dropResets :=
            if query.counterMax.isNone ∧
                (query.counterResetValue.isNone ∨ query.counterResetValue = some 0) then
              some true
            else none }
      { m1 with rate := true, rateOptions := some ro }
    else m1
  let m3 := if query.tags.length > 0 then { m2 with tags := some query.tags } else m2
  if query.filters.length > 0 then { m3 with filters := some query.filters } else m3

/-- Go `url.QueryEscape` restricted to ASCII input (alphanumerics and
`-_.~` kept, space becomes `+`, everything else percent-encoded with
uppercase hex). Multi-byte UTF-8 sequences are not modelled. -/
def hexDigitUpper (n : Nat) : Char :=
  if n < 10 then Char.ofNat (48 + n) else Char.ofNat (55 + n)

/-- Should Go's query escaping encode this ASCII character? -/
def goShouldEscape (c : Char) : Bool :=
  !(c.isAlphanum || c == '-' || c == '_' || c == '.' || c == '~')

/-- Go `url.QueryEscape` (ASCII). -/
def urlQueryEscape (s : String) : String :=
  String.mk (s.data.foldr (fun c acc =>
    if c = ' ' then '+' :: acc
    else if goShouldEscape c then
      '%' :: hexDigitUpper (c.toNat / 16) :: hexDigitUpper (c.toNat % 16) :: acc
    else c :: acc) [])

/-- Go `buildGexp(query, start, end)`: the raw query string of the
`/api/query/gexp` request. -/
def buildGexp (query : GoQuery) (startTime endTime : Int) : String :=
  let queryString := "start=" ++ toString startTime ++ "&end=" ++ toString endTime
  let queryString :=
    if !query.disableDownsampling then
      let downsampleInterval :=
        if query.downsampleInterval = "" then "1m" else query.downsampleInterval
      let downsample := downsampleInterval ++ "-" ++ query.downsampleAggregator
      if query.downsampleFillPolicy ≠ "none" then
        queryString ++ "&downsampleFillPolicy=" ++ urlQueryEscape downsample ++ "-" ++
          urlQueryEscape query.downsampleFillPolicy
      else
        queryString ++ "&downsampleFillPolicy=" ++ urlQueryEscape downsample
    else queryString
  queryString ++ "&exp=" ++ urlQueryEscape query.gexp

/-! ### Response model and reconciliation -/

/-- One response row (`RawSeries`): used both for `/api/query` metric rows and
`/api/query/gexp` rows. `queryIndex` models `metricData.query.index`, the
origin-index echoed when `showQuery` was requested (`none` when the response
carries no such field; reading it then would fail at runtime). `dps` values
are the numeric samples, passed through untouched by the modelled code. -/
structure RawSeries where
  metric : String := ""
  tags : List (String × String) := []
  aggregateTags : List String := []
  dps : List (String × Int) := []
  queryIndex : Option Int := none
deriving DecidableEq, Repr

/-- Lookup of `tags[k]` on a series' tag mapping (`none` = undefined). -/
def lookupTag (tags : List (String × String)) (k : String) : Option String :=
  (tags.find? (fun kv => kv.1 = k)).map (fun kv => kv.2)

/-- The predicate of the `_.findIndex` scan inside `mapMetricsToTargets`
(protocol version < 3): filters present means match on metric name alone,
otherwise the metric must match and every declared tag must match the series'
tag value through pipe-expansion or the `*` wildcard. -/
def legacyTargetMatches (tsr : TemplateSrv) (target : Target) (metricData : RawSeries) : Bool :=
  if target.filters.length > 0 then
    target.metric == metricData.metric
  else
    target.metric == metricData.metric &&
      target.tags.all (fun tag =>
        let interpolatedTagValue := tsr.replacePipe tag.2
        let arrTagV := interpolatedTagValue.splitOn "|"
        (match lookupTag metricData.tags tag.1 with
         | some v => arrTagV.contains v
         | none => false) || interpolatedTagValue == "*")

/-- A dynamically-typed argument of `mapMetricsToTargets` as passed at its two
parameter positions `targets`/`options`: either the panel request object
(which has a `targets` property) or a plain array of targets (which has
none). -/
inductive AnyArg where
  | reqOptions (targets : List Target)
  | targetArr (targets : List Target)
deriving DecidableEq, Repr

/-- JavaScript read of the `targets` property: present on the request object,
`undefined` on an array. -/
def AnyArg.fieldTargets : AnyArg → Option (List Target)
  | .reqOptions ts => some ts
  | .targetArr _ => none

/-- lodash `_.findIndex` on a possibly-undefined collection: `-1` when the
collection is null/undefined or no element satisfies the predicate. -/
def lodashFindIndex (xs : Option (List α)) (p : α → Bool) : Int :=
  match xs with
  | none => -1
  | some l =>
    match l.findIdx? p with
    | some i => Int.ofNat i
    | none => -1

/-- Sequence per-row index computations: a row whose computation fails at
runtime fails the whole mapping. -/
def mapSeries (f : RawSeries → Option Int) : List RawSeries → Option (List Int)
  | [] => some []
  | md :: rest => (f md).bind (fun i => (mapSeries f rest).map (fun l => i :: l))

/-- `mapMetricsToTargets(metrics, targets, options, tsdbVersion)` from the
TypeScript datasource. The version-3 branch reads `metricData.query.index`
(`none` result models the runtime failure when the field is missing); the
legacy branch scans `options.targets` — whatever object was passed at the
`options` position — with `_.findIndex`. -/
def mapMetricsToTargets (tsr : TemplateSrv) (metrics : List RawSeries) (targets : AnyArg)
    (options : AnyArg) (tsdbVersion : Nat) : Option (List Int) :=
  mapSeries (fun metricData =>
    if tsdbVersion = 3 then
      metricData.queryIndex
    else
      some (lodashFindIndex options.fieldTargets
        (fun target => legacyTargetMatches tsr target metricData))) metrics

/-- The caller-side fallback in `query`: a mapping of `-1` is replaced by
target index `0`. -/
def resolveFallback (i : Int) : Int := if i = -1 then 0 else i

/-- The composed metric reconciliation of `query`: the request's (mutated)
targets are filtered to the metric ones, `mapMetricsToTargets` is called as in
the source — request object at the `targets` position, filtered target array
at the `options` position — and each mapped index is clamped by the `-1 → 0`
fallback. The result is the list of target indices used to pick
`tsqTargets[index]` for each response row. -/
def resolvedTargetIndices (tsr : TemplateSrv) (responseData : List RawSeries)
    (targetsAfter : List Target) (tsdbVersion : Nat) : Option (List Int) :=
  let tsqTargets := targetsAfter.filter (fun t => t.queryType = some "metric")
  (mapMetricsToTargets tsr responseData (AnyArg.reqOptions targetsAfter)
      (AnyArg.targetArr tsqTargets) tsdbVersion).map
    (fun l => l.map resolveFallback)

/-! ### The target loop of `query` -/

/-- The per-target preprocessing at the top of `query`: targets with falsy
`metric` and falsy `gexp` are skipped before anything else; otherwise a falsy
`queryType` is overwritten with `'metric'` in the caller's target object. -/
def mutateTarget (t : Target) : Target :=
  if t.metric = "" ∧ t.gexp = "" then t
  else if t.queryType = none ∨ t.queryType = some "" then { t with queryType := some "metric" }
  else t

/-- The state of `options.targets` after `query`'s target loop ran. -/
def queryTargets (targets : List Target) : List Target :=
  targets.map mutateTarget

/-- The compacted `queries` list built by `query`'s target loop. -/
def queryMetricQueries (tsr : TemplateSrv) (optionsInterval : String) (tsdbVersion : Nat)
    (targets : List Target) : List MetricQuery :=
  (queryTargets targets).filterMap (fun t =>
    if t.metric = "" ∧ t.gexp = "" then none
    else if t.queryType = some "metric" then
      convertTargetToQuery tsr t optionsInterval tsdbVersion
    else none)

/-- The compacted `gExpressions` list built by `query`'s target loop
(lodash `_.compact` also drops the empty expression string of a non-hidden
target). -/
def queryGExpressions (targets : List Target) : List String :=
  (queryTargets targets).filterMap (fun t =>
    if t.metric = "" ∧ t.gexp = "" then none
    else if t.queryType = some "gexp" then
      match convertGExpToQuery t with
      | some s => if s = "" then none else some s
      | none => none
    else none)

/-- What `query` does after building the two lists: either the early return
`Promise.resolve with data = []` issuing no outbound request, or the dispatch
of the batch metric request and the per-expression requests. -/
inductive QueryOutcome where
  | emptyNoRequest
  | dispatch (queries : List MetricQuery) (gExpressions : List String)
deriving DecidableEq, Repr

/-- The dispatch decision of `query`. -/
def queryOutcome (tsr : TemplateSrv) (optionsInterval : String) (tsdbVersion : Nat)
    (targets : List Target) : QueryOutcome :=
  let queries := queryMetricQueries tsr optionsInterval tsdbVersion targets
  let gExpressions := queryGExpressions targets
  if queries.isEmpty ∧ gExpressions.isEmpty then QueryOutcome.emptyNoRequest
  else QueryOutcome.dispatch queries gExpressions

/-! ### Label synthesis and timestamp resolution -/

/-- The accumulation step of the `groupByTags` object: JavaScript object keys
ordered by insertion, duplicates ignored. -/
def addKey (acc : List String) (k : String) : List String :=
  if acc.contains k then acc else acc ++ [k]

/-- One query's contribution to the `groupByTags` object: filter tag keys of
a query with filters, tag-mapping keys otherwise. -/
def groupByStep (acc : List String) (query : MetricQuery) : List String :=
  match query.filters with
  | some fs =>
    if fs.length > 0 then fs.foldl (fun a f => addKey a f.tagk) acc
    else (query.tags.getD []).foldl (fun a kv => addKey a kv.1) acc
  | none => (query.tags.getD []).foldl (fun a kv => addKey a kv.1) acc

/-- The `groupByTags` object `query` builds from the compacted metric
queries. -/
def buildGroupByTags (queries : List MetricQuery) : List String :=
  queries.foldl groupByStep []

/-- `createMetricLabel(md, target, groupByTags, options)`: alias interpolation
when an alias is set, otherwise the metric name with a brace-wrapped,
comma-space-joined list of the series' tags whose keys are group-by keys. -/
def createMetricLabel (tsr : TemplateSrv) (md : RawSeries) (target : Target)
    (groupByTags : List String) : String :=
  if target.alias ≠ "" then
    tsr.replaceAlias target.alias md.tags
  else
    let tagData := md.tags.filterMap (fun tag =>
      if groupByTags.contains tag.1 then some (tag.1 ++ "=" ++ tag.2) else none)
    if !tagData.isEmpty then
      md.metric ++ "\x7b" ++ String.intercalate ", " tagData ++ "\x7d"
    else md.metric

/-- JavaScript `ToNumber` on a string as exercised by `k * factor` on
datapoint keys: trimmed empty text is `0`, optionally signed integer text is
its value, anything else (the keys are epoch text, so fractional or exponent
literals do not occur) is `NaN`. -/
def jsStringToNumber (s : String) : JsNum :=
  let ws : Char → Prop := fun c => c = ' ' ∨ c = '\t' ∨ c = '\n'
  let cs := (s.data.dropWhile (fun c => decide (ws c))).reverse.dropWhile (fun c => decide (ws c)) |>.reverse
  if cs.isEmpty then .int 0
  else
    let signAndRest : Bool × List Char :=
      match cs with
      | '-' :: rest => (true, rest)
      | '+' :: rest => (false, rest)
      | rest => (false, rest)
    let ds := signAndRest.2.takeWhile Char.isDigit
    if ds.isEmpty then .nan
    else if !(signAndRest.2.drop ds.length).isEmpty then .nan
    else .int (if signAndRest.1 then -(digitsVal ds : Int) else (digitsVal ds : Int))

/-- Multiplication of a coerced key by a literal factor (`NaN` absorbs). -/
def jsNumMul (a : JsNum) (m : Int) : JsNum :=
  match a with
  | .int n => .int (n * m)
  | .nan => .nan

/-- `getDatapointsAtCorrectResolution(result, tsdbResolution)`: each datapoint
hash entry `ts => value` becomes `[value, ts * 1]` at millisecond resolution
(`tsdbResolution === 2`) and `[value, ts * 1000]` otherwise. -/
def getDatapointsAtCorrectResolution (dps : List (String × α)) (tsdbResolution : Nat) :
    List (α × JsNum) :=
  dps.map (fun kv =>
    if tsdbResolution = 2 then (kv.2, jsNumMul (jsStringToNumber kv.1) 1)
    else (kv.2, jsNumMul (jsStringToNumber kv.1) 1000))

/-- The `(label, datapoints)` pair produced for one reconciled series. -/
structure SeriesResult where
  target : String
  datapoints : List (Int × JsNum)
deriving DecidableEq, Repr

/-- `transformMetricData(md, groupByTags, target, options, tsdbResolution)`. -/
def transformMetricData (tsr : TemplateSrv) (md : RawSeries) (groupByTags : List String)
    (target : Target) (tsdbResolution : Nat) : SeriesResult :=
  { target := createMetricLabel tsr md target groupByTags
    datapoints := getDatapointsAtCorrectResolution md.dps tsdbResolution }

/-! ### Expression (gexp) request and reconciliation -/

/-- Truthiness of the possibly-null `end` timestamp. -/
def jsTruthyIntOpt : Option Int → Bool
  | none => false
  | some n => n != 0

/-- `performGExpressionQuery(idx, gExp, start, end, globalOptions)`: the URL
of the outbound GET request. The source's conditional
`urlParams = '&end=' + end` runs only after the request options (and their
`url`) were built from the previous value, so the reassigned string is never
read; the dead store is reproduced below. -/
def performGExpressionQuery (tsr : TemplateSrv) (baseUrl : String) (idx : Nat)
    (gExp : String) (startTime : Int) (endTime : Option Int) : String :=
  let urlParams0 := "?start=" ++ toString startTime ++ "&exp=" ++ gExp ++
    "&gexpIndex=" ++ toString idx
  let urlParams1 := tsr.replacePipe urlParams0
  let url := baseUrl ++ "/api/query/gexp" ++ urlParams1
  let _urlParams2 := if jsTruthyIntOpt endTime then "&end=" ++ toString (endTime.getD 0)
    else urlParams1
  url

/-- Does the regex fragment `gexpIndex=(\d+)` match at offset `i`? Returns
the greedy capture value. -/
def gexpIndexMatchAt (cs : List Char) (i : Nat) : Option Nat :=
  let rest := cs.drop i
  if "gexpIndex=".data.isPrefixOf rest then
    let ds := (rest.drop 10).takeWhile Char.isDigit
    if ds.isEmpty then none else some (digitsVal ds)
  else none

/-- `mapGExpToTargets(queryUrl)`: the match of `/.+gexpIndex=(\d+).*/`.
The greedy `.+` forces at least one preceding character and backtracks from
the right, so the capture comes from the last occurrence of `gexpIndex=`
followed by a digit at offset ≥ 1; `-1` when there is no match. (URLs contain
no newline, so the `.`-does-not-match-newline subtlety does not arise.) -/
def mapGExpToTargets (queryUrl : String) : Int :=
  let cs := queryUrl.data
  let candidates := (List.range cs.length).filterMap (fun i =>
    if 1 ≤ i then gexpIndexMatchAt cs i else none)
  match candidates.getLast? with
  | some n => Int.ofNat n
  | none => -1

/-- A character of the `$tag_<name>` capture class `[a-zA-Z0-9-_\.\/]`. -/
def tagTokenChar (c : Char) : Bool :=
  c.isAlphanum || c == '-' || c == '_' || c == '.' || c == '/'

/-- The global regex replacement of `createGexpLabel`: every `$tag_<name>`
token is replaced by the series' tag value (JavaScript renders a missing tag
as the text `undefined`). Structured as fuel recursion — the fuel is the
string length, and each step consumes at least one character, so the
zero-fuel case is unreachable from `createGexpLabel`. -/
def gexpAliasSubst (tags : List (String × String)) : Nat → List Char → List Char
  | 0, _ => []
  | _ + 1, [] => []
  | fuel + 1, c :: rest =>
    if c = '$' ∧ "tag_".data.isPrefixOf rest then
      let afterTag := rest.drop 4
      let tok := afterTag.takeWhile tagTokenChar
      if tok.isEmpty then c :: gexpAliasSubst tags fuel rest
      else
        ((lookupTag tags (String.mk tok)).getD "undefined").data ++
          gexpAliasSubst tags fuel (afterTag.drop tok.length)
    else c :: gexpAliasSubst tags fuel rest

/-- `createGexpLabel(data, target)`. -/
def createGexpLabel (data : RawSeries) (target : Target) : String :=
  if target.gexpAlias = "" then target.gexp
  else String.mk (gexpAliasSubst data.tags target.gexpAlias.data.length target.gexpAlias.data)

/-- `transformGexpData(gExp, target, tsdbResolution)`: the sentinel `false`
returned for an undefined target is modelled as `none` (the caller filters
those rows out). -/
def transformGexpData (gExp : RawSeries) (target : Option Target) (tsdbResolution : Nat) :
    Option SeriesResult :=
  match target with
  | none => none
  | some t =>
    some { target := createGexpLabel gExp t
           datapoints := getDatapointsAtCorrectResolution gExp.dps tsdbResolution }

/-- The gexp response handler inside `query`: recover the index from the
echoed request URL, clamp `-1` to `0`, transform each row against
`gexpTargets[index]`, and drop the `false` sentinels. -/
def handleGexpResponse (responseUrl : String) (rows : List RawSeries)
    (gexpTargets : List Target) (tsdbResolution : Nat) : List SeriesResult :=
  let gExpTargetIndex := mapGExpToTargets responseUrl
  let result := rows.map (fun row =>
    let index := resolveFallback gExpTargetIndex
    transformGexpData row (gexpTargets.get? index.toNat) tsdbResolution)
  result.filterMap id

/-- Substring test used to state facts about built URLs. -/
def strContains (hay needle : String) : Bool :=
  (List.range (hay.data.length + 1)).any (fun i => needle.data.isPrefixOf (hay.data.drop i))

/-- Prefix test on strings through their character lists. -/
def strStartsWith (s pre : String) : Bool :=
  pre.data.isPrefixOf s.data

/-! ### Claim theorems -/

/-- C1 (code bug). The claim says legacy (version < 3) reconciliation scans
the targets in declaration order and picks the first match. In the source,
`query` calls `mapMetricsToTargets(response.data, options, tsqTargets,
this.tsdbVersion)` against the signature `(metrics, targets, options,
tsdbVersion)`, so the scan reads `options.targets` off the filtered target
array — `undefined` — and `_.findIndex` returns `-1` for every series; after
the `-1 → 0` fallback every legacy series lands on target index 0. At the
concrete input below (two metric targets `a` and `b`, one series for metric
`b`) the composed code yields index 0, while the very scan the function body
spells out, fed a request object at the `options` position as the body
expects, selects index 1. -/
theorem c1_legacy_mapping_code_bug :
    resolvedTargetIndices idTemplateSrv [{ metric := "b" }]
      [{ metric := "a", queryType := some "metric" }, { metric := "b", queryType := some "metric" }]
      1 = some [0] ∧
    lodashFindIndex (AnyArg.fieldTargets (AnyArg.reqOptions
      [{ metric := "a", queryType := some "metric" }, { metric := "b", queryType := some "metric" }]))
      (fun t => legacyTargetMatches idTemplateSrv t { metric := "b" }) = 1 := by
  exact ⟨rfl, rfl⟩

/-- C2 (code bug). The claim says `dropResets = true` exactly when no
`counterMax` and no non-zero `counterResetValue` was supplied. The TypeScript
`convertTargetToQuery` stores the reset value under the key `resetValue` but
derives `dropResets` from the never-written property `ResetValue`, so with
`counterMax` absent and `counterResetValue = "5"` it still sets
`dropResets = true`; the duplicated Go `buildMetric` implements the stated
derivation and leaves `dropResets` unset on the same input. -/
theorem c2_dropResets_code_bug :
    ((convertTargetToQuery idTemplateSrv
        { metric := "m", shouldComputeRate := true, counterResetValue := "5", downsampleAggregator := "avg" }
        "1m" 2).map (fun q => q.rateOptions)) =
      some (some [("counter", RateVal.bool false), ("resetValue", RateVal.num (JsNum.int 5)),
        ("dropResets", RateVal.bool true)]) ∧
    (buildMetric
        { metric := "m", shouldComputeRate := true, counterResetValue := some 5, downsampleAggregator := "avg" }).rateOptions =
      some { counter := false, counterMax := none, resetValue := some 5, dropResets := none } := by
  exact ⟨rfl, rfl⟩

/-- C5 (code bug). The claim says the gexp request URL contains start, end,
the url-encoded expression and the `gexpIndex` parameter whenever an end time
is present. In the TypeScript source the conditional `urlParams = '&end=' +
end` executes only after the request options were built, so the outbound URL
never contains the end time (the Go `buildGexp` twin, conversely, emits
start/end/exp but no `gexpIndex`). Evaluated at start 1000, end 2000,
expression `sum`, index 0. -/
theorem c5_gexp_url_code_bug :
    performGExpressionQuery idTemplateSrv "http://x" 0 "sum" 1000 (some 2000) =
      "http://x/api/query/gexp?start=1000&exp=sum&gexpIndex=0" ∧
    strContains (performGExpressionQuery idTemplateSrv "http://x" 0 "sum" 1000 (some 2000))
      "end=" = false ∧
    strContains (buildGexp { gexp := "sum", downsampleAggregator := "avg" } 1000 2000)
      "gexpIndex" = false ∧
    strContains (buildGexp { gexp := "sum", downsampleAggregator := "avg" } 1000 2000)
      "end=2000" = true := by
  refine ⟨rfl, by decide, by decide, by decide⟩

/-- C8 (confirmed). For a datapoint whose timestamp key is numeric text, the
transformer emits the timestamp times 1 at millisecond-resolution mode
(`tsdbResolution = 2`) and times 1000 at any other (second-resolution)
mode, with the value passed through. -/
theorem c8_resolution_conversion (dps : List (String × Int)) (i : Nat) (k : String) (v : Int)
    (t : Int) (hk : dps.get? i = some (k, v)) (ht : jsStringToNumber k = JsNum.int t) :
    (getDatapointsAtCorrectResolution dps 2).get? i = some (v, JsNum.int t) ∧
    ∀ res : Nat, res ≠ 2 →
      (getDatapointsAtCorrectResolution dps res).get? i = some (v, JsNum.int (t * 1000)) := by
  constructor
  · unfold getDatapointsAtCorrectResolution
    rw [List.get?_map, hk]
    simp [jsNumMul, ht]
  · intro res hres
    unfold getDatapointsAtCorrectResolution
    rw [List.get?_map, hk]
    simp [jsNumMul, ht, hres]

/-- Witness for C8 at the claim's example: key `"1700000000"` yields
`1700000000000` at second resolution and `1700000000` at millisecond
resolution. -/
theorem c8_resolution_conversion_witness :
    (getDatapointsAtCorrectResolution [("1700000000", (7 : Int))] 2).get? 0 =
      some (7, JsNum.int 1700000000) ∧
    (getDatapointsAtCorrectResolution [("1700000000", (7 : Int))] 1).get? 0 =
      some (7, JsNum.int 1700000000000) := by
  have h := c8_resolution_conversion [("1700000000", (7 : Int))] 0 "1700000000" 7 1700000000
    rfl (by decide)
  refine ⟨h.1, ?_⟩
  rw [h.2 1 (by decide)]
  decide

/-- Helper: when every response row carries an origin index, sequencing the
per-row reads returns exactly those indices. -/
theorem mapSeries_queryIndex (metrics : List RawSeries) (idxs : List Nat)
    (h : metrics.map (fun md => md.queryIndex) = idxs.map (fun n => some (Int.ofNat n))) :
    mapSeries (fun md => md.queryIndex) metrics = some (idxs.map (fun n => Int.ofNat n)) := by
  induction metrics generalizing idxs with
  | nil =>
    cases idxs with
    | nil => rfl
    | cons n ns => simp at h
  | cons md ms ih =>
    cases idxs with
    | nil => simp at h
    | cons n ns =>
      rw [List.map_cons, List.map_cons] at h
      injection h with h1 h2
      show (md.queryIndex).bind
        (fun i => (mapSeries (fun md => md.queryIndex) ms).map (fun l => i :: l)) =
        some (((n :: ns).map (fun n => Int.ofNat n)))
      rw [h1, ih ns h2]
      rfl

/-- Helper: the `-1 → 0` fallback leaves a nonnegative index untouched. -/
theorem resolveFallback_ofNat (n : Nat) : resolveFallback (Int.ofNat n) = Int.ofNat n := by
  have hne : Int.ofNat n ≠ -1 := by
    simp only [Int.ofNat_eq_coe]
    omega
  unfold resolveFallback
  rw [if_neg hne]

/-- Helper: the `-1 → 0` fallback leaves nonnegative indices untouched. -/
theorem map_resolveFallback_ofNat (idxs : List Nat) :
    (idxs.map (fun n => Int.ofNat n)).map resolveFallback = idxs.map (fun n => Int.ofNat n) := by
  induction idxs with
  | nil => rfl
  | cons n ns ih => rw [List.map_cons, List.map_cons, resolveFallback_ofNat n, ih]

/-- C4 (corrected to protocol version exactly 3). Under `tsdbVersion = 3` the
composed reconciliation of `query` resolves every series to exactly the
origin index the series carries, whatever the target list and whatever order
the response lists the series in. -/
theorem c4_index_exact_v3 (tsr : TemplateSrv) (metrics : List RawSeries)
    (targetsAfter : List Target) (idxs : List Nat)
    (h : metrics.map (fun md => md.queryIndex) = idxs.map (fun n => some (Int.ofNat n))) :
    resolvedTargetIndices tsr metrics targetsAfter 3 = some (idxs.map (fun n => Int.ofNat n)) := by
  show Option.map (fun l => List.map resolveFallback l)
    (mapSeries (fun md => md.queryIndex) metrics) = some (idxs.map (fun n => Int.ofNat n))
  rw [mapSeries_queryIndex metrics idxs h, Option.map_some', map_resolveFallback_ofNat]

/-- C4 counterexample. The claim quantifies over protocol version ≥ 3, but
the source tests `tsdbVersion === 3`: at version 4 the series carrying origin
index 1 falls into the legacy branch (which, through the call-site argument
swap, always yields `-1`, clamped to 0) and is not mapped to target 1. -/
theorem c4_version_ge3_counterexample :
    resolvedTargetIndices idTemplateSrv [{ metric := "b", queryIndex := some 1 }]
      [{ metric := "a", queryType := some "metric" }, { metric := "b", queryType := some "metric" }]
      4 = some [0] ∧ (some [0] : Option (List Int)) ≠ some [1] := by
  exact ⟨rfl, by decide⟩

/-- Witness for C4: two series echoing origin indices 1 and 0 — out of
declaration order — are resolved to targets 1 and 0 under version 3. -/
theorem c4_index_exact_v3_witness :
    resolvedTargetIndices idTemplateSrv
      [{ metric := "b", queryIndex := some 1 }, { metric := "a", queryIndex := some 0 }]
      [{ metric := "a", queryType := some "metric" }, { metric := "b", queryType := some "metric" }]
      3 = some [1, 0] := by
  have h := c4_index_exact_v3 idTemplateSrv
    [{ metric := "b", queryIndex := some 1 }, { metric := "a", queryIndex := some 0 }]
    [{ metric := "a", queryType := some "metric" }, { metric := "b", queryType := some "metric" }]
    [1, 0] rfl
  exact h

/-- Helper: rows that all became the dropped sentinel filter to nothing. -/
theorem filterMap_id_map_none (rows : List RawSeries) :
    (rows.map (fun _ => (none : Option SeriesResult))).filterMap id = [] := by
  simp

/-- C7 (confirmed). If the gexp index cannot be recovered from the echoed
request URL (`mapGExpToTargets` returns `-1`), every row of the response is
attributed to gexp target index 0; if the recovered index points past the
gexp target list, every row is dropped from the result instead of failing. -/
theorem c7_gexp_fallback_and_drop (responseUrl : String) (rows : List RawSeries)
    (gexpTargets : List Target) (tsdbResolution : Nat) :
    (mapGExpToTargets responseUrl = -1 →
      handleGexpResponse responseUrl rows gexpTargets tsdbResolution =
        (rows.map (fun row =>
          transformGexpData row (gexpTargets.get? 0) tsdbResolution)).filterMap id) ∧
    (∀ n : Nat, mapGExpToTargets responseUrl = Int.ofNat n → gexpTargets.length ≤ n →
      handleGexpResponse responseUrl rows gexpTargets tsdbResolution = []) := by
  constructor
  · intro h
    unfold handleGexpResponse
    rw [h]
    rfl
  · intro n h hn
    unfold handleGexpResponse
    rw [h]
    have h2 : gexpTargets.get? (resolveFallback (Int.ofNat n)).toNat = none := by
      rw [resolveFallback_ofNat n]
      rw [show (Int.ofNat n).toNat = n from rfl]
      exact List.get?_eq_none.mpr hn
    simp only [h2, transformGexpData]
    exact filterMap_id_map_none rows

/-- Witness for C7: with no `gexpIndex` in the URL the row is attributed to
gexp target 0; with an echoed index of 5 against a single gexp target the
row is dropped. -/
theorem c7_gexp_fallback_and_drop_witness :
    handleGexpResponse "http://x/api/query/gexp?start=1&exp=sum"
      [{ metric := "g", dps := [("100", 7)] }] [{ gexp := "sum", queryType := some "gexp" }] 1 =
      [{ target := "sum", datapoints := [(7, JsNum.int 100000)] }] ∧
    handleGexpResponse "http://x/api/query/gexp?start=1&exp=sum&gexpIndex=5"
      [{ metric := "g", dps := [("100", 7)] }] [{ gexp := "sum", queryType := some "gexp" }] 1 =
      [] := by
  constructor
  · have h := (c7_gexp_fallback_and_drop "http://x/api/query/gexp?start=1&exp=sum"
      [{ metric := "g", dps := [("100", 7)] }] [{ gexp := "sum", queryType := some "gexp" }] 1).1
      (by decide)
    rw [h]
    rfl
  · exact (c7_gexp_fallback_and_drop "http://x/api/query/gexp?start=1&exp=sum&gexpIndex=5"
      [{ metric := "g", dps := [("100", 7)] }] [{ gexp := "sum", queryType := some "gexp" }] 1).2
      5 (by decide) (by decide)


/-- Helper: string concatenation is associative. -/
theorem strAppend_assoc (a b c : String) : a ++ b ++ c = a ++ (b ++ c) := by
  apply String.ext
  simp

/-- Helper: the explicit-tags step does not touch `downsample`. -/
theorem ds_step_explicit (c : Prop) [Decidable c] (q : MetricQuery) :
    (if c then { q with explicitTags := true } else q).downsample = q.downsample := by
  split <;> rfl

/-- Helper: the filters/tags step does not touch `downsample`. -/
theorem ds_step_filters (c : Prop) [Decidable c] (q : MetricQuery) (fs : List QueryFilter)
    (ts : List (String × String)) :
    (if c then { q with filters := some fs } else { q with tags := some ts }).downsample =
      q.downsample := by
  split <;> rfl

/-- Helper: the rate step does not touch `downsample`. -/
theorem ds_step_rate (c : Prop) [Decidable c] (q : MetricQuery) (ro : RateOpts) :
    (if c then { q with rate := true, rateOptions := some ro } else q).downsample =
      q.downsample := by
  split <;> rfl

/-- Helper: the aggregator step does not touch `downsample`. -/
theorem ds_step_agg (c : Prop) [Decidable c] (q : MetricQuery) (a : String) :
    (if c then { q with aggregator := a } else q).downsample = q.downsample := by
  split <;> rfl

/-- Helper: the downsample step writes `downsample` when taken. -/
theorem ds_step_write (c : Prop) [Decidable c] (q : MetricQuery) (d : String) :
    (if c then { q with downsample := some d } else q).downsample =
      if c then some d else q.downsample := by
  split <;> rfl

/-- Helper: the `downsample` field of a successfully built TypeScript metric
query, read off from `convertTargetToQuery` as a function of the target and
the panel interval. -/
theorem convertTargetToQuery_downsample (tsr : TemplateSrv) (target : Target)
    (optionsInterval : String) (tsdbVersion : Nat) (mq : MetricQuery)
    (hmq : convertTargetToQuery tsr target optionsInterval tsdbVersion = some mq) :
    mq.downsample =
      (if !target.disableDownsampling then
        let interval0 := tsr.replace
          (if target.downsampleInterval ≠ "" then target.downsampleInterval else optionsInterval)
        let interval1 := if matchesSubSecond interval0 then subSecondToMs interval0 else interval0
        let ds0 := interval1 ++ "-" ++ target.downsampleAggregator
        some (if target.downsampleFillPolicy ≠ "" ∧ target.downsampleFillPolicy ≠ "none" then
          ds0 ++ "-" ++ target.downsampleFillPolicy else ds0)
      else none) := by
  unfold convertTargetToQuery at hmq
  by_cases h0 : target.metric = "" ∨ target.hide
  · rw [if_pos h0] at hmq
    exact absurd hmq (by simp)
  · rw [if_neg h0] at hmq
    injection hmq with hmq
    subst hmq
    rw [ds_step_explicit, ds_step_filters, ds_step_write, ds_step_rate, ds_step_agg]

/-- Helper: the Go filters step does not touch `downsample`. -/
theorem gods_step_filters (c : Prop) [Decidable c] (m : GoMetric) (fs : List QueryFilter) :
    (if c then { m with filters := some fs } else m).downsample = m.downsample := by
  split <;> rfl

/-- Helper: the Go tags step does not touch `downsample`. -/
theorem gods_step_tags (c : Prop) [Decidable c] (m : GoMetric) (ts : List (String × String)) :
    (if c then { m with tags := some ts } else m).downsample = m.downsample := by
  split <;> rfl

/-- Helper: the Go rate step does not touch `downsample`. -/
theorem gods_step_rate (c : Prop) [Decidable c] (m : GoMetric) (ro : GoRateOptions) :
    (if c then { m with rate := true, rateOptions := some ro } else m).downsample =
      m.downsample := by
  split <;> rfl

/-- Helper: the `downsample` field of the Go-built metric map. -/
theorem buildMetric_downsample (q : GoQuery) :
    (buildMetric q).downsample =
      (if !q.disableDownsampling then
        let downsampleInterval :=
          if q.downsampleInterval = "" then "1m" else q.downsampleInterval
        let downsample := downsampleInterval ++ "-" ++ q.downsampleAggregator
        some (if q.downsampleFillPolicy ≠ "none" then
          downsample ++ "-" ++ q.downsampleFillPolicy else downsample)
      else none) := by
  unfold buildMetric
  rw [gods_step_filters, gods_step_tags, gods_step_rate]
  by_cases hd : q.disableDownsampling
  · simp only [hd, Bool.not_true, Bool.false_eq_true, if_false]
  · simp only [Bool.not_eq_true] at hd
    simp only [hd, Bool.not_false, if_true]
    split <;> rfl

/-- C3 (corrected). Both builders omit `downsample` exactly when downsampling
is disabled. On a blank target interval the Go `buildMetric` defaults to `1m`,
so its field starts with `1m-`; the TypeScript `convertTargetToQuery` instead
falls back to the interpolated panel-wide interval option — converted to a
millisecond literal when it matches the sub-second-with-fraction pattern —
so its field starts with that (possibly converted) interval followed by `-`
(which is `1m-` only when the panel interval interpolates to `1m`). -/
theorem c3_downsample_amended :
    (∀ q : GoQuery, q.disableDownsampling = true → (buildMetric q).downsample = none) ∧
    (∀ q : GoQuery, q.disableDownsampling = false → q.downsampleInterval = "" →
      ∃ rest, (buildMetric q).downsample = some ("1m-" ++ rest)) ∧
    (∀ (tsr : TemplateSrv) (target : Target) (oi : String) (v : Nat) (mq : MetricQuery),
      convertTargetToQuery tsr target oi v = some mq → target.disableDownsampling = true →
      mq.downsample = none) ∧
    (∀ (tsr : TemplateSrv) (target : Target) (oi : String) (v : Nat) (mq : MetricQuery),
      convertTargetToQuery tsr target oi v = some mq → target.disableDownsampling = false →
      target.downsampleInterval = "" →
      ∃ rest, mq.downsample = some ((if matchesSubSecond (tsr.replace oi) then
        subSecondToMs (tsr.replace oi) else tsr.replace oi) ++ "-" ++ rest)) := by
  refine ⟨?_, ?_, ?_, ?_⟩
  · intro q hd
    rw [buildMetric_downsample]
    simp only [hd, Bool.not_true, Bool.false_eq_true, if_false]
  · intro q hd hi
    rw [buildMetric_downsample]
    simp only [hd, hi, Bool.not_false, if_true]
    by_cases hf : q.downsampleFillPolicy ≠ "none"
    · refine ⟨q.downsampleAggregator ++ "-" ++ q.downsampleFillPolicy, ?_⟩
      simp only [if_pos rfl, if_pos hf]
      simp only [strAppend_assoc]
      rfl
    · refine ⟨q.downsampleAggregator, ?_⟩
      simp only [if_pos rfl, if_neg hf]
      rfl
  · intro tsr target oi v mq hmq hd
    rw [convertTargetToQuery_downsample tsr target oi v mq hmq]
    simp only [hd, Bool.not_true, Bool.false_eq_true, if_false]
  · intro tsr target oi v mq hmq hd hi
    rw [convertTargetToQuery_downsample tsr target oi v mq hmq]
    simp only [hd, hi, Bool.not_false, if_true, ne_eq, not_true_eq_false, if_false,
      Bool.false_eq_true, ite_false]
    by_cases hf : target.downsampleFillPolicy ≠ "" ∧ target.downsampleFillPolicy ≠ "none"
    · refine ⟨target.downsampleAggregator ++ "-" ++ target.downsampleFillPolicy, ?_⟩
      rw [if_pos hf]
      simp only [strAppend_assoc]
    · refine ⟨target.downsampleAggregator, ?_⟩
      rw [if_neg hf]

/-- C3 counterexample. With downsampling enabled, a blank target interval and
a panel interval of `30s`, the TypeScript builder emits `30s-avg`, which does
not start with `1m-`. -/
theorem c3_blank_interval_counterexample :
    (convertTargetToQuery idTemplateSrv { metric := "m", downsampleAggregator := "avg" }
      "30s" 1).map (fun q => q.downsample) = some (some "30s-avg") ∧
    strStartsWith "30s-avg" "1m-" = false := by
  exact ⟨rfl, by decide⟩

/-- Witness for C3 at concrete inputs: Go with a disabled flag omits the
field; Go with a blank interval yields a field starting `1m-`; TypeScript
with a blank target interval and panel interval `30s` yields a field
starting `30s-`, and with the sub-second panel interval `0.5s` a field
starting `500ms-` (the millisecond-literal conversion). -/
theorem c3_downsample_amended_witness :
    (buildMetric { metric := "m", disableDownsampling := true }).downsample = none ∧
    (∃ rest, (buildMetric { metric := "m", downsampleAggregator := "avg" }).downsample =
      some ("1m-" ++ rest)) ∧
    (∃ rest, (convertTargetToQuery idTemplateSrv { metric := "m", downsampleAggregator := "avg" }
      "30s" 1).get!.downsample = some ("30s" ++ "-" ++ rest)) ∧
    (∃ rest, (convertTargetToQuery idTemplateSrv { metric := "m", downsampleAggregator := "avg" }
      "0.5s" 1).get!.downsample = some ("500ms" ++ "-" ++ rest)) := by
  refine ⟨?_, ?_, ?_, ?_⟩
  · exact c3_downsample_amended.1 { metric := "m", disableDownsampling := true } rfl
  · exact c3_downsample_amended.2.1 { metric := "m", downsampleAggregator := "avg" } rfl rfl
  · obtain ⟨rest, hrest⟩ := c3_downsample_amended.2.2.2 idTemplateSrv
      { metric := "m", downsampleAggregator := "avg" } "30s" 1
      (convertTargetToQuery idTemplateSrv
        { metric := "m", downsampleAggregator := "avg" } "30s" 1).get!
      rfl rfl rfl
    refine ⟨rest, ?_⟩
    rw [hrest]
    rfl
  · obtain ⟨rest, hrest⟩ := c3_downsample_amended.2.2.2 idTemplateSrv
      { metric := "m", downsampleAggregator := "avg" } "0.5s" 1
      (convertTargetToQuery idTemplateSrv
        { metric := "m", downsampleAggregator := "avg" } "0.5s" 1).get!
      rfl rfl rfl
    refine ⟨rest, ?_⟩
    rw [hrest]
    rfl

/-- Helper: the builder returns `null` for an empty metric or hidden target. -/
theorem convertTargetToQuery_eq_none (tsr : TemplateSrv) (target : Target)
    (oi : String) (v : Nat) (h : target.metric = "" ∨ target.hide = true) :
    convertTargetToQuery tsr target oi v = none := by
  unfold convertTargetToQuery
  rw [if_pos h]

/-- Helper: the target-loop mutation does not change `metric`. -/
theorem mutateTarget_metric (t : Target) : (mutateTarget t).metric = t.metric := by
  unfold mutateTarget
  repeat' split
  all_goals rfl

/-- Helper: the target-loop mutation does not change `gexp`. -/
theorem mutateTarget_gexp (t : Target) : (mutateTarget t).gexp = t.gexp := by
  unfold mutateTarget
  repeat' split
  all_goals rfl

/-- Helper: the target-loop mutation does not change `hide`. -/
theorem mutateTarget_hide (t : Target) : (mutateTarget t).hide = t.hide := by
  unfold mutateTarget
  repeat' split
  all_goals rfl

/-- Helper: a mutated target of type `gexp` already had that type. -/
theorem mutateTarget_queryType_gexp (t : Target)
    (h : (mutateTarget t).queryType = some "gexp") : t.queryType = some "gexp" := by
  unfold mutateTarget at h
  split at h
  · exact h
  · split at h
    · simp at h
    · exact h

/-- Helper: a mutated target of type `metric` had type `metric` or a falsy
query type. -/
theorem mutateTarget_queryType_metric (t : Target)
    (h : (mutateTarget t).queryType = some "metric") :
    t.queryType = none ∨ t.queryType = some "" ∨ t.queryType = some "metric" := by
  unfold mutateTarget at h
  split at h
  · right; right; exact h
  · split at h
    · rename_i hqt
      exact Or.imp id Or.inl hqt
    · right; right; exact h

/-- The per-target hypothesis of C6: the target is hidden, or the query
string relevant to its declared type is empty. -/
def hiddenOrEmpty (t : Target) : Bool :=
  t.hide || (if t.queryType = some "gexp" then t.gexp == "" else t.metric == "")

/-- C6 (confirmed). When every target is hidden or has an empty metric/gexp
string, `query` takes the early return: no outbound request is issued and the
result is the empty series list. -/
theorem c6_no_valid_targets_empty (tsr : TemplateSrv) (optionsInterval : String)
    (tsdbVersion : Nat) (targets : List Target)
    (h : ∀ t ∈ targets, hiddenOrEmpty t = true) :
    queryOutcome tsr optionsInterval tsdbVersion targets = QueryOutcome.emptyNoRequest := by
  have hq : queryMetricQueries tsr optionsInterval tsdbVersion targets = [] := by
    unfold queryMetricQueries queryTargets
    rw [List.filterMap_map, List.filterMap_eq_nil_iff]
    intro t ht
    have hte := h t ht
    simp only [Function.comp]
    by_cases hboth : (mutateTarget t).metric = "" ∧ (mutateTarget t).gexp = ""
    · rw [if_pos hboth]
    · rw [if_neg hboth]
      by_cases hqt : (mutateTarget t).queryType = some "metric"
      · rw [if_pos hqt]
        apply convertTargetToQuery_eq_none
        rw [mutateTarget_metric, mutateTarget_hide]
        unfold hiddenOrEmpty at hte
        rcases Bool.or_eq_true_iff.mp hte with hh | hx
        · right; exact hh
        · have hq' := mutateTarget_queryType_metric t hqt
          have hne : ¬ (t.queryType = some "gexp") := by
            rcases hq' with h1 | h1 | h1 <;> simp [h1]
          rw [if_neg hne] at hx
          left
          simpa using hx
      · rw [if_neg hqt]
  have hg : queryGExpressions targets = [] := by
    unfold queryGExpressions queryTargets
    rw [List.filterMap_map, List.filterMap_eq_nil_iff]
    intro t ht
    have hte := h t ht
    simp only [Function.comp]
    by_cases hboth : (mutateTarget t).metric = "" ∧ (mutateTarget t).gexp = ""
    · rw [if_pos hboth]
    · rw [if_neg hboth]
      by_cases hqt : (mutateTarget t).queryType = some "gexp"
      · rw [if_pos hqt]
        unfold convertGExpToQuery
        by_cases hh : (mutateTarget t).hide = true
        · rw [if_pos hh]
        · rw [if_neg hh]
          simp only [Bool.not_eq_true, mutateTarget_hide] at hh
          have hqt0 := mutateTarget_queryType_gexp t hqt
          unfold hiddenOrEmpty at hte
          rw [hh, if_pos hqt0, Bool.false_or] at hte
          have hgexp : (mutateTarget t).gexp = "" := by
            rw [mutateTarget_gexp]
            simpa using hte
          simp [hgexp]
      · rw [if_neg hqt]
  unfold queryOutcome
  simp only [hq, hg, List.isEmpty_nil, and_self, if_true]

/-- Witness for C6: a hidden metric target plus a gexp target with an empty
expression produce the early empty return. -/
theorem c6_no_valid_targets_empty_witness :
    queryOutcome idTemplateSrv "1m" 1
      [{ metric := "m", hide := true, queryType := some "metric" },
       { gexp := "", queryType := some "gexp" }] = QueryOutcome.emptyNoRequest := by
  apply c6_no_valid_targets_empty
  decide

/-- The spec-side group-by membership test for one built query: the key is
among the query's filter tag keys when filters are present and non-empty,
among its tag-mapping keys otherwise. -/
def groupByKeyOfQuery (query : MetricQuery) (k : String) : Bool :=
  match query.filters with
  | some fs =>
    if fs.length > 0 then fs.any (fun f => f.tagk == k)
    else (query.tags.getD []).any (fun kv => kv.1 == k)
  | none => (query.tags.getD []).any (fun kv => kv.1 == k)

/-- Helper: membership after one key insertion. -/
theorem mem_addKey (acc : List String) (k k' : String) :
    k ∈ addKey acc k' ↔ k ∈ acc ∨ k' = k := by
  unfold addKey
  split
  · rename_i hc
    constructor
    · exact Or.inl
    · rintro (hk | hk)
      · exact hk
      · subst hk
        exact List.elem_iff.mp hc
  · simp [List.mem_append, eq_comm]

/-- Helper: membership after folding a key extractor over a list. -/
theorem mem_foldl_addKey {α : Type} (f : α → String) (xs : List α) (acc : List String)
    (k : String) :
    k ∈ xs.foldl (fun a x => addKey a (f x)) acc ↔ k ∈ acc ∨ ∃ x ∈ xs, f x = k := by
  induction xs generalizing acc with
  | nil => simp
  | cons x xs ih =>
    rw [List.foldl_cons, ih, mem_addKey]
    simp only [List.mem_cons]
    constructor
    · rintro ((hk | hk) | ⟨y, hy, hfy⟩)
      · exact Or.inl hk
      · exact Or.inr ⟨x, Or.inl rfl, hk⟩
      · exact Or.inr ⟨y, Or.inr hy, hfy⟩
    · rintro (hk | ⟨y, (hy | hy), hfy⟩)
      · exact Or.inl (Or.inl hk)
      · subst hy
        exact Or.inl (Or.inr hfy)
      · exact Or.inr ⟨y, hy, hfy⟩

/-- Helper: membership after one query's contribution to `groupByTags`. -/
theorem mem_groupByStep (query : MetricQuery) (acc : List String) (k : String) :
    k ∈ groupByStep acc query ↔ k ∈ acc ∨ groupByKeyOfQuery query k = true := by
  unfold groupByStep groupByKeyOfQuery
  rcases hq : query.filters with _ | fs
  · simp only [hq]
    rw [mem_foldl_addKey (fun kv : String × String => kv.1)]
    simp [List.any_eq_true]
  · simp only [hq]
    split
    · rw [mem_foldl_addKey (fun f : QueryFilter => f.tagk)]
      simp [List.any_eq_true]
    · rw [mem_foldl_addKey (fun kv : String × String => kv.1)]
      simp [List.any_eq_true]

/-- Helper: a key is in the accumulated `groupByTags` object exactly when
some built query grouped on it. -/
theorem mem_buildGroupByTags (queries : List MetricQuery) (k : String) :
    k ∈ buildGroupByTags queries ↔ ∃ q ∈ queries, groupByKeyOfQuery q k = true := by
  unfold buildGroupByTags
  suffices hgen : ∀ acc : List String, k ∈ queries.foldl groupByStep acc ↔
      k ∈ acc ∨ ∃ q ∈ queries, groupByKeyOfQuery q k = true by
    rw [hgen []]
    simp
  induction queries with
  | nil =>
    intro acc
    simp
  | cons q qs ih =>
    intro acc
    rw [List.foldl_cons, ih, mem_groupByStep]
    constructor
    · rintro ((hk | hk) | ⟨y, hy, hfy⟩)
      · exact Or.inl hk
      · exact Or.inr ⟨q, List.mem_cons_self q qs, hk⟩
      · exact Or.inr ⟨y, List.mem_cons_of_mem q hy, hfy⟩
    · rintro (hk | ⟨y, hy, hfy⟩)
      · exact Or.inl (Or.inl hk)
      · rcases List.mem_cons.mp hy with hy | hy
        · subst hy
          exact Or.inl (Or.inr hfy)
        · exact Or.inr ⟨y, hy, hfy⟩

/-- Helper: the Boolean `contains` test used by `createMetricLabel` agrees
with existential membership over the built queries. -/
theorem contains_buildGroupByTags (queries : List MetricQuery) (k : String) :
    (buildGroupByTags queries).contains k = queries.any (fun q => groupByKeyOfQuery q k) := by
  rw [Bool.eq_iff_iff]
  rw [List.any_eq_true]
  constructor
  · intro hc
    have := (mem_buildGroupByTags queries k).mp (List.elem_iff.mp hc)
    simpa using this
  · intro hx
    apply List.elem_iff.mpr
    apply (mem_buildGroupByTags queries k).mpr
    simpa using hx

/-- C9 (confirmed). For a reconciled series whose target declares no alias,
the synthesized label is the metric name, suffixed — when non-empty — with a
brace-wrapped comma-space list, in tag insertion order, of exactly those series
tags whose key is grouped on by some built metric query of the panel. -/
theorem c9_metric_label_synthesis (tsr : TemplateSrv) (queries : List MetricQuery)
    (md : RawSeries) (target : Target) (h : target.alias = "") :
    createMetricLabel tsr md target (buildGroupByTags queries) =
      (let tagData := md.tags.filterMap (fun tag =>
        if queries.any (fun q => groupByKeyOfQuery q tag.1) then
          some (tag.1 ++ "=" ++ tag.2) else none)
      if tagData.isEmpty then md.metric
      else md.metric ++ "\x7b" ++ String.intercalate ", " tagData ++ "\x7d") := by
  unfold createMetricLabel
  rw [if_neg (by simp [h])]
  have hcon : ∀ tag : String × String, (buildGroupByTags queries).contains tag.1 =
      queries.any (fun q => groupByKeyOfQuery q tag.1) :=
    fun tag => contains_buildGroupByTags queries tag.1
  simp only [hcon]
  by_cases hb : (md.tags.filterMap (fun tag =>
      if queries.any (fun q => groupByKeyOfQuery q tag.1) then some (tag.1 ++ "=" ++ tag.2)
      else none)).isEmpty
  · simp only [hb, Bool.not_true, Bool.false_eq_true, if_false, if_true]
  · simp only [Bool.not_eq_true] at hb
    simp only [hb, Bool.not_false, if_true, Bool.false_eq_true, if_false]

/-- Witness for C9 at the claim's example: metric `sys.cpu` with tags
`host=web1, dc=us` against a panel that grouped only on `host` yields the
label `sys.cpu` followed by `host=web1` in braces. -/
theorem c9_metric_label_synthesis_witness :
    createMetricLabel idTemplateSrv
      { metric := "sys.cpu", tags := [("host", "web1"), ("dc", "us")] }
      { metric := "sys.cpu" }
      (buildGroupByTags
        [{ metric := "sys.cpu", aggregator := "avg", tags := some [("host", "web1")] }]) =
      "sys.cpu\x7bhost=web1\x7d" := by
  rw [c9_metric_label_synthesis idTemplateSrv
    [{ metric := "sys.cpu", aggregator := "avg", tags := some [("host", "web1")] }]
    { metric := "sys.cpu", tags := [("host", "web1"), ("dc", "us")] }
    { metric := "sys.cpu" } rfl]
  rfl

/-- C10 counterexample. A target in the request whose `queryType` is absent
but whose `metric` and `gexp` are both empty is skipped before the default is
applied: after `query`'s loop its `queryType` is still absent, contradicting
the claim that every such target gets `queryType = 'metric'` written. -/
theorem c10_mutation_counterexample :
    queryTargets [{ metric := "", gexp := "", queryType := none }] =
      [{ metric := "", gexp := "", queryType := none }] ∧
    ({ metric := "", gexp := "", queryType := none } : Target).queryType ≠ some "metric" := by
  constructor
  · rfl
  · simp

/-- C10 (corrected, frame effect). `query` mutates the caller's target list in
place: every target with a non-empty (truthy) `metric` or `gexp` whose
`queryType` is absent or empty gets `queryType := 'metric'` written into the
target object, all other fields unchanged; every other target — including
the skipped ones with both query strings empty — is left entirely
unchanged. -/
theorem c10_mutation_amended (targets : List Target) (i : Nat) (t : Target)
    (h : targets.get? i = some t) :
    (queryTargets targets).get? i = some (
      if (t.metric ≠ "" ∨ t.gexp ≠ "") ∧ (t.queryType = none ∨ t.queryType = some "") then
        { t with queryType := some "metric" }
      else t) := by
  unfold queryTargets
  rw [List.get?_map, h, Option.map_some']
  congr 1
  unfold mutateTarget
  by_cases h1 : t.metric = "" ∧ t.gexp = ""
  · rw [if_pos h1, if_neg]
    rintro ⟨hor, _⟩
    rcases hor with h' | h' <;> simp [h1.1, h1.2] at h'
  · rw [if_neg h1]
    by_cases h2 : t.queryType = none ∨ t.queryType = some ""
    · rw [if_pos h2, if_pos ⟨not_and_or.mp h1, h2⟩]
    · rw [if_neg h2, if_neg (fun hc => h2 hc.2)]

/-- Witness for C10: a metric target with absent `queryType` comes out of the
loop with `queryType = 'metric'` and no other field changed. -/
theorem c10_mutation_amended_witness :
    (queryTargets [{ metric := "m" }]).get? 0 =
      some { metric := "m", queryType := some "metric" } := by
  rw [c10_mutation_amended [{ metric := "m" }] 0 { metric := "m" } rfl]
  rfl
